import Mathlib

/-!
Verification development for `page-summarizer.py`: a shallow embedding of the
page-fetching / content-extraction / prompt-construction / summarization
pipeline, together with theorems about its behaviour.

The embedding models:
* the parsed HTML tree handed to the code by the HTML parser (`Node`),
* the BeautifulSoup operations the code uses (`find` for `title`/`body`,
  `Tag.string`, destructive `decompose` of script/style/img/input elements,
  `get_text`),
* the `Website` class (its `url` property setter performs the fetch and the
  extraction; the constructor delegates to the setter),
* the `Config` accessors (`get`, `get_int`) over a key-value store,
* the `LlmSummarizer` class (lazy `system_behavior` message, `user_prompt_for`,
  `messages_for`, `summarize`) with the HTTP fetch and the LLM chat-completion
  call abstracted as oracle functions,
* the presenter `show_summary`.

Python exceptions are modelled by `PyError` and `Except`; Python `None` by
`Option.none`.
-/

/-- A node of the parsed HTML tree: either a text node (bs4 `NavigableString`)
or an element with a tag name and a list of children (bs4 `Tag`). -/
inductive Node where
  | text (s : String)
  | elem (tag : String) (children : List Node)

/-- A parsed HTML document: the forest of top-level nodes of the soup. -/
abbrev Doc := List Node

mutual
/-- Model of bs4 `find(t)` on a single node: an element whose tag is `t`
matches itself (returning its children), otherwise its subtree is searched
in document (pre)order.  Text nodes never match. -/
def findTagN (t : String) : Node → Option (List Node)
  | Node.text _ => none
  | Node.elem tag cs => if tag = t then some cs else findTagL t cs

/-- Model of bs4 `find(t)` on a forest: first match in document order.
`soup.title` and `soup.body` are `findTagL "title"` / `findTagL "body"`
on the whole document; `none` models Python `None` (no such element). -/
def findTagL (t : String) : List Node → Option (List Node)
  | [] => none
  | n :: rest =>
    match findTagN t n with
    | some r => some r
    | none => findTagL t rest
end

/-- Model of bs4 `PageElement.string` on a node: a text node is its own
string; an element with exactly one child has the string of that child;
any other element (zero or several children) has string `None`. -/
def nodeString : Node → Option String
  | Node.text s => some s
  | Node.elem _ [c] => nodeString c
  | Node.elem _ _ => none

/-- Model of bs4 `Tag.string` for an element given by its child list
(`soup.title.string` is `tagString` of the title element's children). -/
def tagString : List Node → Option String
  | [c] => nodeString c
  | _ => none

mutual
/-- Model of the decompose loop (`for irrelevant in soup.body([...]):
irrelevant.decompose()`) on a single node: an element whose tag is in `bad`
is removed together with its whole subtree; any other node is kept with its
subtree cleaned recursively. -/
def decomposeN (bad : List String) : Node → List Node
  | Node.text s => [Node.text s]
  | Node.elem tag cs => if tag ∈ bad then [] else [Node.elem tag (decomposeL bad cs)]

/-- Model of the decompose loop on a forest (the children of `body`). -/
def decomposeL (bad : List String) : List Node → List Node
  | [] => []
  | n :: rest => decomposeN bad n ++ decomposeL bad rest
end

mutual
/-- The text leaves of a node's subtree, in document order. -/
def textsN : Node → List String
  | Node.text s => [s]
  | Node.elem _ cs => textsL cs

/-- The text leaves of a forest, in document order. -/
def textsL : List Node → List String
  | [] => []
  | n :: rest => textsN n ++ textsL rest
end

/-- Model of bs4 `get_text()` (default empty separator) on an element given
by its child list: the concatenation of all text leaves of the subtree. -/
def getText (cs : List Node) : String := String.join (textsL cs)

/-- The tag names removed from the body before text extraction
(line 61 of the source). -/
def irrelevantTags : List String := ["script", "style", "img", "input"]

/-- Model of a Python exception value, as far as the code can raise one:
`valueError` with its message (the explicit `raise ValueError(...)` and the
one `int()` can raise), the `TypeError` the runtime raises when `soup.body`
is `None` and gets called, and the `IndexError` raised by `choices[0]` on an
empty list. -/
inductive PyError where
  | valueError (msg : String)
  | typeError (msg : String)
  | indexError (msg : String)
deriving DecidableEq

/-- The message of the `ValueError` raised on a non-200 status
(line 65: `f"Failed to fetch the URL: {url}"`). -/
def fetchErrorMsg (url : String) : String := "Failed to fetch the URL: " ++ url

/-- The message of the `TypeError` the Python runtime raises when the parsed
document has no body element and `soup.body([...])` calls `None`. -/
def noneCallMsg : String := "\x27NoneType\x27 object is not callable"

/-- The message of the `IndexError` the Python runtime raises for
`response.choices[0]` on an empty list. -/
def indexErrorMsg : String := "list index out of range"

/-- The HTTP boundary: a fetch oracle mapping a URL to the status code of the
GET response and the response content as parsed by the HTML parser. -/
abbrev Fetch := String → Nat × Doc

/-- A fully initialized `Website` object as exposed to callers: `url`,
`title` (`Option` because `soup.title.string` can be Python `None`), and the
extracted body `text`. -/
structure Website where
  url : String
  title : Option String
  text : String
deriving DecidableEq

/-- Model of line 60 of the source:
`soup.title.string if soup.title else "No title found"`.  A bs4 `Tag` is
always truthy, so the condition is a presence test; when the title element
is present its `string` is taken (possibly Python `None`). -/
def extractTitle (doc : Doc) : Option String :=
  match findTagL "title" doc with
  | some cs => tagString cs
  | none => some "No title found"

/-- Model of the `Website` constructor (lines 67-68), which runs the `url`
property setter (lines 54-65): one GET; on status 200 the title is read, the
irrelevant elements are decomposed out of the body and its remaining text is
taken; on any other status a `ValueError` naming the URL is raised.  When the
document has no body element, `soup.body([...])` calls `None` and the runtime
raises a `TypeError`.  A raising constructor exposes no object, which the
`Except.error` result models. -/
def mkWebsite (fetch : Fetch) (url : String) : Except PyError Website :=
  if (fetch url).1 = 200 then
    match findTagL "body" (fetch url).2 with
    | none => Except.error (PyError.typeError noneCallMsg)
    | some bodyCs =>
      Except.ok ⟨url, extractTitle (fetch url).2, getText (decomposeL irrelevantTags bodyCs)⟩
  else Except.error (PyError.valueError (fetchErrorMsg url))

/-- The attribute state of a `Website` object: each of `__url`, `__title`,
`__text` is either unset (`none`) or holds a value.  `title`'s inner `Option`
is the possible Python `None` title. -/
structure WebsiteState where
  url : Option String
  title : Option (Option String)
  text : Option String
deriving DecidableEq

/-- The attribute state of a freshly allocated `Website` before `__init__`
runs: no attribute assigned. -/
def initWebsiteState : WebsiteState := ⟨none, none, none⟩

/-- Model of the `url` property setter (lines 54-65) at attribute
granularity: `__url` is assigned first, then the GET runs; on status 200
`__title` is assigned, and `__text` only if a body element exists (otherwise
a `TypeError` is raised with `__text` untouched); on a non-200 status a
`ValueError` is raised with `__title` and `__text` untouched.  Returns the
attribute state reached and the exception raised, if any. -/
def setUrl (fetch : Fetch) (w : WebsiteState) (url : String) : WebsiteState × Option PyError :=
  let w1 : WebsiteState := { w with url := some url }
  if (fetch url).1 = 200 then
    let w2 : WebsiteState := { w1 with title := some (extractTitle (fetch url).2) }
    match findTagL "body" (fetch url).2 with
    | none => (w2, some (PyError.typeError noneCallMsg))
    | some bodyCs =>
      ({ w2 with text := some (getText (decomposeL irrelevantTags bodyCs)) }, none)
  else (w1, some (PyError.valueError (fetchErrorMsg url)))

/-- The attribute state of an exposed (fully constructed) `Website`. -/
def stateOf (w : Website) : WebsiteState := ⟨some w.url, some w.title, some w.text⟩

/-- The configuration store (`dotenv_values`): a map from key to value.  A
key mapped to Python `None` by dotenv behaves in `get_int` exactly like a
missing key (the `is not None` guard), so both are modelled as `none`. -/
abbrev ConfigStore := String → Option String

/-- Model of `Config.get` (lines 17-18): `self._config.get(key, None)`. -/
def configGet (cfg : ConfigStore) (key : String) : Option String := cfg key

/-- Model of the Python built-in `int()` applied to a string, restricted to
what a dotenv value can be: surrounding whitespace is stripped, an optional
sign is read, and a nonempty run of decimal digits is required (digit-group
underscores are not modelled); any other string raises `ValueError`.  Here
`none` means `int()` raises. -/
def digitsToNat (l : List Char) : Nat := l.foldl (fun a c => a * 10 + (c.toNat - 48)) 0

/-- Strip leading and trailing whitespace, as `int()` does. -/
def stripWs (l : List Char) : List Char :=
  ((l.dropWhile Char.isWhitespace).reverse.dropWhile Char.isWhitespace).reverse

/-- A nonempty all-digit run parses to its value; anything else fails. -/
def parseDigits (l : List Char) : Option Nat :=
  if !l.isEmpty && l.all Char.isDigit then some (digitsToNat l) else none

/-- Model of the Python built-in `int()` on a string (see `parseDigits`). -/
def pyInt (s : String) : Option Int :=
  match stripWs s.data with
  | '+' :: rest => (parseDigits rest).map (fun n => (n : Int))
  | '-' :: rest => (parseDigits rest).map (fun n => -(n : Int))
  | l => (parseDigits l).map (fun n => (n : Int))

/-- Model of `Config.get_int` (lines 20-24): missing key (or dotenv `None`
value) gives Python `None`; a present value is passed to `int()`, which
raises `ValueError` on an unparseable literal. -/
def get_int (cfg : ConfigStore) (key : String) : Except PyError (Option Int) :=
  match configGet cfg key with
  | none => Except.ok none
  | some v =>
    match pyInt v with
    | some n => Except.ok (some n)
    | none =>
      Except.error (PyError.valueError
        ("invalid literal for int() with base 10: \x27" ++ v ++ "\x27"))

/-- A chat message: the `{"role": ..., "content": ...}` dictionaries the
summarizer builds. -/
structure Message where
  role : String
  content : String
deriving DecidableEq

/-- The fixed system message built by the `system_behavior` property
(lines 105-113); the content is the concatenation of the three adjacent
string literals of the source. -/
def system_behavior_value : Message :=
  ⟨"system",
    "You are an assistant that analyzes the contents of a website " ++
    "and provides a short summary, ignoring the text that might be navigation-related." ++
    "Respond in markdown and be concise."⟩

/-- The mutable state of an `LlmSummarizer` the modelled operations touch:
the lazily cached `__system_behavior` dictionary (`none` models `= None`). -/
structure SummarizerState where
  system_behavior_cache : Option Message
deriving DecidableEq

/-- The state of a freshly constructed `LlmSummarizer` (line 98 sets
`__system_behavior = None`; `__init__` only stores the config). -/
def initSummarizerState : SummarizerState := ⟨none⟩

/-- Model of the lazy `system_behavior` property (lines 100-114): on first
use the fixed dictionary is built and cached; afterwards the cache is
returned. -/
def system_behavior : SummarizerState → Message × SummarizerState
  | ⟨none⟩ => (system_behavior_value, ⟨some system_behavior_value⟩)
  | ⟨some m⟩ => (m, ⟨some m⟩)

/-- Python `str()` of an `Optional[str]`, as an f-string interpolates it:
`None` prints as "None". -/
def pyStrOpt : Option String → String
  | none => "None"
  | some s => s

/-- The content of the user message built by `user_prompt_for`
(lines 121-127), mirroring the source's adjacent f-string/literal pieces. -/
def user_prompt_content (title : Option String) (text : String) : String :=
  "You are looking at the website titled \"" ++ pyStrOpt title ++ "\"" ++
  "The content of this website is as follows; " ++
  "please provide a short summary of this website in markdown." ++
  "If it includes news or announcements, then summarize these too.\n\n" ++
  "\"\"\"\n" ++ text ++ "\n\"\"\"\n\n"

/-- Model of `user_prompt_for` (lines 120-131). -/
def user_prompt_for (website : Website) : Message :=
  ⟨"user", user_prompt_content website.title website.text⟩

/-- Model of `messages_for` (lines 137-144): the (lazily cached) system
message followed by the user message. -/
def messages_for (st : SummarizerState) (website : Website) :
    List Message × SummarizerState :=
  let pr := system_behavior st
  ([pr.1, user_prompt_for website], pr.2)

/-- The content of one completion choice's message: `message.content` of the
OpenAI response, which is `Optional[str]`. -/
structure ChoiceMessage where
  content : Option String
deriving DecidableEq

/-- One completion choice of the OpenAI response. -/
structure Choice where
  message : ChoiceMessage
deriving DecidableEq

/-- The chat-completion response: its list of choices. -/
structure ChatCompletion where
  choices : List Choice
deriving DecidableEq

/-- The LLM boundary: an oracle mapping the sent messages to the
chat-completion response of the one call the code makes. -/
abbrev Llm := List Message → ChatCompletion

/-- The outcome of a `summarize` run: the returned value or raised
exception, the summarizer state afterwards, and how many chat-completion
calls were performed. -/
structure SummOut where
  result : Except PyError (Option String)
  state : SummarizerState
  llmCalls : Nat

/-- Model of the tail of `summarize` (lines 156-163) once a `Website` is in
hand: build the messages, make the one chat-completion call, and return
`response.choices[0].message.content` — an `IndexError` when the response
has no choices. -/
def summarize_website (llm : Llm) (st : SummarizerState) (website : Website) : SummOut :=
  let pr := messages_for st website
  match (llm pr.1).choices with
  | [] => ⟨Except.error (PyError.indexError indexErrorMsg), pr.2, 1⟩
  | c :: _ => ⟨Except.ok c.message.content, pr.2, 1⟩

/-- Model of `summarize` (lines 150-163): a string input is first turned
into a `Website` (one fetch; a raised exception propagates and the LLM is
never called); a `Website` input is used directly. -/
def summarize (fetch : Fetch) (llm : Llm) (st : SummarizerState)
    (input : Website ⊕ String) : SummOut :=
  match input with
  | Sum.inl w => summarize_website llm st w
  | Sum.inr url =>
    match mkWebsite fetch url with
    | Except.ok w => summarize_website llm st w
    | Except.error e => ⟨Except.error e, st, 0⟩

/-- One observable action on the display surface: either the markdown
renderer is invoked on some content (`display_markdown`, lines 170-174) or a
plain string is printed. -/
inductive DisplayAction where
  | markdown (content : String)
  | plain (s : String)
deriving DecidableEq

/-- Model of `show_summary` (lines 176-183): Python truthiness of the
`Optional[str]` argument — `None` and the empty string are falsy — selects
between rendering the summary as markdown and printing the fixed fallback
line.  The result lists the display actions performed. -/
def show_summary : Option String → List DisplayAction
  | some s =>
    if s = "" then [DisplayAction.plain "No summary found."]
    else [DisplayAction.markdown s]
  | none => [DisplayAction.plain "No summary found."]

/-- Whether the markdown renderer is invoked by a list of display actions. -/
def hasMarkdown : List DisplayAction → Bool
  | [] => false
  | DisplayAction.markdown _ :: _ => true
  | _ :: rest => hasMarkdown rest

/-- `needle` occurs contiguously inside `hay` (substring containment on the
underlying character lists). -/
def strContains (needle hay : String) : Prop := needle.data <:+: hay.data

instance instDecStrContains (needle hay : String) : Decidable (strContains needle hay) :=
  inferInstanceAs (Decidable (needle.data <:+: hay.data))

mutual
/-- Spec side, for comparison with the extractor: the text leaves of a
node's subtree that lie outside every element whose tag is in `bad`
(the spec's "removal is destructive — descendants go with them"). -/
def keptTextsN (bad : List String) : Node → List String
  | Node.text s => [s]
  | Node.elem tag cs => if tag ∈ bad then [] else keptTextsL bad cs

/-- Spec side: the text leaves of a forest lying outside every `bad`
element. -/
def keptTextsL (bad : List String) : List Node → List String
  | [] => []
  | n :: rest => keptTextsN bad n ++ keptTextsL bad rest
end

/-- The summarizer states that occur in a run: the fresh state and the state
with the fixed system message cached (`system_behavior` is the only writer
of the cache, and it only ever writes `system_behavior_value`). -/
def ReachableS (st : SummarizerState) : Prop :=
  st = initSummarizerState ∨ st = ⟨some system_behavior_value⟩

/-- A small well-formed document: title "T" in the head, body text "B". -/
def doc0 : Doc :=
  [Node.elem "html"
    [Node.elem "head" [Node.elem "title" [Node.text "T"]],
     Node.elem "body" [Node.text "B"]]]

/-- A fetch oracle answering every URL with status 200 and `doc0`. -/
def fetch0 : Fetch := fun _ => (200, doc0)

/-- The website extracted from `doc0` for URL "u". -/
def w0 : Website := ⟨"u", some "T", "B"⟩

/-- An LLM oracle answering with zero choices. -/
def llm0 : Llm := fun _ => ⟨[]⟩

/-- An LLM oracle answering with one choice whose content is "S". -/
def llm1 : Llm := fun _ => ⟨[⟨⟨some "S"⟩⟩]⟩

/-- A fetch oracle answering every URL with status 404. -/
def fetch404 : Fetch := fun _ => (404, [])

/-- A fetch oracle answering every URL with status 500. -/
def fetch500 : Fetch := fun _ => (500, [])

/-- A fetch oracle answering status 200 with a document that has no body
element (a bare text node). -/
def fetchNoBody : Fetch := fun _ => (200, [Node.text "hello"])

/-- A document whose title element has two child nodes (text "x" and an
element wrapping text "y"), so its text is "xy" but its bs4 `string` is
Python `None`. -/
def docMultiTitle : Doc :=
  [Node.elem "html"
    [Node.elem "head" [Node.elem "title" [Node.text "x", Node.elem "b" [Node.text "y"]]],
     Node.elem "body" [Node.text "B"]]]

/-- A fetch oracle answering status 200 with `docMultiTitle`. -/
def fetchMultiTitle : Fetch := fun _ => (200, docMultiTitle)

/-- A document whose body holds a script with text "Hello" and, separately,
a paragraph with the same text "Hello". -/
def docDup : Doc :=
  [Node.elem "html"
    [Node.elem "title" [Node.text "T"],
     Node.elem "body"
       [Node.elem "script" [Node.text "Hello"],
        Node.elem "p" [Node.text "Hello"]]]]

/-- A fetch oracle answering status 200 with `docDup`. -/
def fetchDup : Fetch := fun _ => (200, docDup)

/-- The website extracted from `docDup` for URL "u". -/
def wDup : Website := ⟨"u", some "T", "Hello"⟩

/-- A fetch oracle for which URL "a" succeeds with `doc0` and every other
URL fails with status 404. -/
def fetchC7 : Fetch := fun u => if u = "a" then (200, doc0) else (404, [])

/-- The website extracted from `doc0` for URL "a". -/
def wA : Website := ⟨"a", some "T", "B"⟩

/-- A configuration store holding the unparseable value "abc" at key "N"
and nothing else. -/
def cfg0 : ConfigStore := fun k => if k = "N" then some "abc" else none

/-! ## Helper lemmas -/

theorem strContains_refl (s : String) : strContains s s := ⟨[], [], by simp⟩

theorem strContains_left (n a b : String) (h : strContains n a) : strContains n (a ++ b) := by
  obtain ⟨s, t, hst⟩ := h
  exact ⟨s, t ++ b.data, by rw [String.data_append, ← hst]; simp⟩

theorem strContains_right (n a b : String) (h : strContains n b) : strContains n (a ++ b) := by
  obtain ⟨s, t, hst⟩ := h
  exact ⟨a.data ++ s, t, by rw [String.data_append, ← hst]; simp⟩

theorem textsL_append (a b : List Node) : textsL (a ++ b) = textsL a ++ textsL b := by
  induction a with
  | nil => rfl
  | cons n rest ih => simp [textsL, ih]

mutual
theorem textsL_decomposeN (bad : List String) (n : Node) :
    textsL (decomposeN bad n) = keptTextsN bad n := by
  cases n with
  | text s => rfl
  | elem tag cs =>
    by_cases h : tag ∈ bad
    · simp [decomposeN, keptTextsN, h, textsL]
    · simp [decomposeN, keptTextsN, h, textsL, textsN, textsL_decomposeL bad cs]

theorem textsL_decomposeL (bad : List String) (l : List Node) :
    textsL (decomposeL bad l) = keptTextsL bad l := by
  cases l with
  | nil => rfl
  | cons n rest =>
    simp [decomposeL, keptTextsL, textsL_append,
      textsL_decomposeN bad n, textsL_decomposeL bad rest]
end

theorem messages_for_eq (st : SummarizerState) (w : Website) (h : ReachableS st) :
    messages_for st w
      = ([system_behavior_value, user_prompt_for w], ⟨some system_behavior_value⟩) := by
  rcases h with h | h <;> subst h <;> rfl

theorem reachable_system_behavior (st : SummarizerState) (h : ReachableS st) :
    (system_behavior st).1 = system_behavior_value ∧ ReachableS (system_behavior st).2 := by
  rcases h with h | h <;> subst h <;> exact ⟨rfl, Or.inr rfl⟩

theorem reachable_messages_for (st : SummarizerState) (w : Website) (h : ReachableS st) :
    ReachableS (messages_for st w).2 :=
  (reachable_system_behavior st h).2

/-- The two renderings of the constructor agree: a `Website` is exposed
exactly when the setter run from the unset attribute state raises nothing,
and then the exposed fields are the assigned attributes; a raised exception
is the same in both renderings. -/
theorem mkWebsite_agrees_setUrl (fetch : Fetch) (url : String) :
    (∀ w, mkWebsite fetch url = Except.ok w →
      setUrl fetch initWebsiteState url = (stateOf w, none)) ∧
    (∀ e, mkWebsite fetch url = Except.error e →
      (setUrl fetch initWebsiteState url).2 = some e) := by
  by_cases h200 : (fetch url).1 = 200
  · cases hb : findTagL "body" (fetch url).2 with
    | none =>
      constructor
      · intro w hw; simp [mkWebsite, h200, hb] at hw
      · intro e he
        simp [mkWebsite, h200, hb] at he
        subst he
        simp [setUrl, h200, hb]
    | some bodyCs =>
      constructor
      · intro w hw
        simp [mkWebsite, h200, hb] at hw
        subst hw
        simp [setUrl, h200, hb, stateOf, initWebsiteState]
      · intro e he; simp [mkWebsite, h200, hb] at he
  · constructor
    · intro w hw; simp [mkWebsite, h200] at hw
    · intro e he
      simp [mkWebsite, h200] at he
      subst he
      simp [setUrl, h200]

/-! ## Claim C1 -/

/-- C1 (claim as stated is false): at a fetch that succeeds with status 200
and an LLM response with zero choices, `summarize` raises `IndexError`
(`response.choices[0]` on an empty list) instead of returning an absent
summary. -/
theorem c1_counterexample :
    (summarize fetch0 llm0 initSummarizerState (Sum.inr "u")).result
        = Except.error (PyError.indexError indexErrorMsg) ∧
    (summarize fetch0 llm0 initSummarizerState (Sum.inr "u")).result
        ≠ Except.ok none := by
  constructor
  · rfl
  · intro h
    rw [show (summarize fetch0 llm0 initSummarizerState (Sum.inr "u")).result
        = Except.error (PyError.indexError indexErrorMsg) from rfl] at h
    exact Except.noConfusion h

/-- C1 amended: for every successful fetch, when the chat-completion
response has at least one choice, `summarize` returns the text content of
the first choice; when it has zero choices, `summarize` raises an
`IndexError` (it does not return an absent summary). -/
theorem c1_amended (fetch : Fetch) (llm : Llm) (st : SummarizerState) (url : String)
    (w : Website) (hw : mkWebsite fetch url = Except.ok w) :
    (∀ c rest, (llm (messages_for st w).1).choices = c :: rest →
      (summarize fetch llm st (Sum.inr url)).result = Except.ok c.message.content) ∧
    ((llm (messages_for st w).1).choices = [] →
      (summarize fetch llm st (Sum.inr url)).result
        = Except.error (PyError.indexError indexErrorMsg)) := by
  constructor
  · intro c rest hc
    simp [summarize, hw, summarize_website, hc]
  · intro hc
    simp [summarize, hw, summarize_website, hc]

/-- C1 witness: the amended theorem applied to the concrete fetch `fetch0`
and a one-choice LLM response with content "S". -/
theorem c1_witness :
    mkWebsite fetch0 "u" = Except.ok w0 ∧
    (summarize fetch0 llm1 initSummarizerState (Sum.inr "u")).result
        = Except.ok (some "S") :=
  ⟨rfl, (c1_amended fetch0 llm1 initSummarizerState "u" w0 rfl).1 ⟨⟨some "S"⟩⟩ [] rfl⟩

/-! ## Claim C2 -/

/-- C2 (claim as stated is false): on status 404 page construction raises
`ValueError` whose message — the error's entire payload — contains the URL
but not the status code; statuses 404 and 500 produce identical errors, so
the error cannot carry the status code. -/
theorem c2_counterexample :
    mkWebsite fetch404 "siteA"
        = Except.error (PyError.valueError "Failed to fetch the URL: siteA") ∧
    ¬ strContains "404" (fetchErrorMsg "siteA") ∧
    mkWebsite fetch404 "siteA" = mkWebsite fetch500 "siteA" := by
  refine ⟨rfl, by decide, rfl⟩

/-- C2 amended: for every URL whose GET returns a status other than 200,
page construction fails with the `ValueError` carrying the URL (but not the
status code) in its message, and `summarize` called with that URL performs
no LLM chat-completion call. -/
theorem c2_amended (fetch : Fetch) (llm : Llm) (st : SummarizerState) (url : String)
    (h : (fetch url).1 ≠ 200) :
    (summarize fetch llm st (Sum.inr url)).result
        = Except.error (PyError.valueError (fetchErrorMsg url)) ∧
    strContains url (fetchErrorMsg url) ∧
    (summarize fetch llm st (Sum.inr url)).llmCalls = 0 := by
  have hm : mkWebsite fetch url = Except.error (PyError.valueError (fetchErrorMsg url)) := by
    simp [mkWebsite, h]
  refine ⟨?_, ?_, ?_⟩
  · simp [summarize, hm]
  · exact strContains_right url "Failed to fetch the URL: " url (strContains_refl url)
  · simp [summarize, hm]

/-- C2 witness: the amended theorem applied to the concrete 404 fetch. -/
theorem c2_witness :
    (summarize fetch404 llm0 initSummarizerState (Sum.inr "siteA")).result
        = Except.error (PyError.valueError (fetchErrorMsg "siteA")) ∧
    strContains "siteA" (fetchErrorMsg "siteA") ∧
    (summarize fetch404 llm0 initSummarizerState (Sum.inr "siteA")).llmCalls = 0 :=
  c2_amended fetch404 llm0 initSummarizerState "siteA" (by decide)

/-! ## Claim C3 -/

/-- C3: the code evaluated at the failing input: a status-200 response whose
document has no body element makes page construction raise the generic
runtime `TypeError` from calling `None` (`soup.body([...])`), not a
designated extraction error. -/
theorem c3_code_eval :
    (fetchNoBody "u").1 = 200 ∧
    findTagL "body" (fetchNoBody "u").2 = none ∧
    mkWebsite fetchNoBody "u" = Except.error (PyError.typeError noneCallMsg) := by
  refine ⟨rfl, rfl, rfl⟩

/-! ## Claim C4 -/

/-- C4 (claim as stated is false): in `docMultiTitle` the title element is
present and its text is "xy", yet extraction returns Python `None`
(`soup.title.string` of an element with two children), not that text. -/
theorem c4_counterexample :
    (findTagL "title" docMultiTitle).isSome = true ∧
    getText [Node.text "x", Node.elem "b" [Node.text "y"]] = "xy" ∧
    extractTitle docMultiTitle = none ∧
    extractTitle docMultiTitle
        ≠ some (getText [Node.text "x", Node.elem "b" [Node.text "y"]]) := by
  refine ⟨rfl, rfl, rfl, by decide⟩

/-- C4 amended: when the document's title element is present with a single
text-node child, extraction returns exactly that text; when no title element
is present, it returns the literal "No title found"; when the title element
is present but has two or more children (so its bs4 `string` is undefined),
extraction returns Python `None` rather than the element's text. -/
theorem c4_amended (doc : Doc) :
    (∀ s, findTagL "title" doc = some [Node.text s] → extractTitle doc = some s) ∧
    (findTagL "title" doc = none → extractTitle doc = some "No title found") ∧
    (∀ n1 n2 rest, findTagL "title" doc = some (n1 :: n2 :: rest) →
      extractTitle doc = none) := by
  refine ⟨?_, ?_, ?_⟩
  · intro s h; simp [extractTitle, h, tagString, nodeString]
  · intro h; simp [extractTitle, h]
  · intro n1 n2 rest h; simp [extractTitle, h, tagString]

/-- C4 witness: the amended theorem applied to `doc0` (title "T") and to the
empty document (no title element). -/
theorem c4_witness :
    extractTitle doc0 = some "T" ∧ extractTitle [] = some "No title found" :=
  ⟨(c4_amended doc0).1 "T" rfl, (c4_amended []).2.1 rfl⟩

/-! ## Claim C5 -/

/-- C5 (claim as stated is false): in `docDup` the body contains a script
element whose text content is "Hello", and the extracted body text does
contain "Hello", because the same text also occurs in a kept paragraph. -/
theorem c5_counterexample :
    mkWebsite fetchDup "u" = Except.ok wDup ∧
    textsN (Node.elem "script" [Node.text "Hello"]) = ["Hello"] ∧
    strContains "Hello" wDup.text := by
  refine ⟨rfl, rfl, by decide⟩

/-- C5 amended: removal is destructive — the extracted body text is exactly
the concatenation of the text lying outside every script/style/img/input
element, so removed elements and their descendants contribute nothing (text
equal to a removed element's content can still appear when it also occurs
outside every removed element). -/
theorem c5_amended (cs : List Node) :
    getText (decomposeL irrelevantTags cs)
      = String.join (keptTextsL irrelevantTags cs) := by
  unfold getText
  rw [textsL_decomposeL]

/-! ## Claim C6 -/

/-- C6: for every title and body text, `messages_for` returns exactly two
messages, the fixed system message first and the user message second, and
the user message's content contains the title and the body text verbatim as
substrings. -/
theorem c6_messages (st : SummarizerState) (url t txt : String) (hst : ReachableS st) :
    (messages_for st ⟨url, some t, txt⟩).1
        = [system_behavior_value, user_prompt_for ⟨url, some t, txt⟩] ∧
    system_behavior_value.role = "system" ∧
    (user_prompt_for ⟨url, some t, txt⟩).role = "user" ∧
    strContains t (user_prompt_for ⟨url, some t, txt⟩).content ∧
    strContains txt (user_prompt_for ⟨url, some t, txt⟩).content := by
  refine ⟨?_, rfl, rfl, ?_, ?_⟩
  · rw [messages_for_eq st ⟨url, some t, txt⟩ hst]
  · show strContains t (user_prompt_content (some t) txt)
    unfold user_prompt_content
    iterate 7 apply strContains_left
    apply strContains_right
    exact strContains_refl t
  · show strContains txt (user_prompt_content (some t) txt)
    unfold user_prompt_content
    apply strContains_left
    apply strContains_right
    exact strContains_refl txt

/-- C6 witness: the theorem applied to the fresh summarizer state, title "T"
and body text "B". -/
theorem c6_witness :
    (messages_for initSummarizerState ⟨"u", some "T", "B"⟩).1
        = [system_behavior_value, user_prompt_for ⟨"u", some "T", "B"⟩] ∧
    system_behavior_value.role = "system" ∧
    (user_prompt_for ⟨"u", some "T", "B"⟩).role = "user" ∧
    strContains "T" (user_prompt_for ⟨"u", some "T", "B"⟩).content ∧
    strContains "B" (user_prompt_for ⟨"u", some "T", "B"⟩).content :=
  c6_messages initSummarizerState "u" "T" "B" (Or.inl rfl)

/-! ## Claim C7 -/

/-- C7 (claim as stated is false): `url` is not immutable — after a
successful construction for URL "a", assigning the failing URL "b" through
the public `url` setter raises, yet the exposed object now carries
`url = "b"` together with the old title and body text. -/
theorem c7_counterexample :
    mkWebsite fetchC7 "a" = Except.ok wA ∧
    (setUrl fetchC7 (stateOf wA) "b").2
        = some (PyError.valueError (fetchErrorMsg "b")) ∧
    ((setUrl fetchC7 (stateOf wA) "b").1).url = some "b" ∧
    ((setUrl fetchC7 (stateOf wA) "b").1).title = some (some "T") ∧
    ((setUrl fetchC7 (stateOf wA) "b").1).text = some "B" := by
  refine ⟨rfl, rfl, rfl, rfl, rfl⟩

/-- C7 amended: a construction that raises no exception yields a fully
populated object (`url`, `title`, `text` all assigned), and a failed
construction exposes no object; but `url` is not immutable: the public
setter overwrites it on every assignment, even one that then fails. -/
theorem c7_amended (fetch : Fetch) (url : String) :
    ((setUrl fetch initWebsiteState url).2 = none →
      ((setUrl fetch initWebsiteState url).1).url = some url ∧
      (((setUrl fetch initWebsiteState url).1).title).isSome = true ∧
      (((setUrl fetch initWebsiteState url).1).text).isSome = true) ∧
    (∀ w : WebsiteState, ((setUrl fetch w url).1).url = some url) := by
  constructor
  · intro h
    by_cases h200 : (fetch url).1 = 200
    · cases hb : findTagL "body" (fetch url).2 with
      | none => simp [setUrl, h200, hb] at h
      | some bodyCs => simp [setUrl, h200, hb]
    · simp [setUrl, h200] at h
  · intro w
    by_cases h200 : (fetch url).1 = 200
    · cases hb : findTagL "body" (fetch url).2 with
      | none => simp [setUrl, h200, hb]
      | some bodyCs => simp [setUrl, h200, hb]
    · simp [setUrl, h200]

/-- C7 witness: the amended theorem's population part applied to the
concrete successful fetch `fetch0`. -/
theorem c7_witness :
    ((setUrl fetch0 initWebsiteState "u").1).url = some "u" ∧
    (((setUrl fetch0 initWebsiteState "u").1).title).isSome = true ∧
    (((setUrl fetch0 initWebsiteState "u").1).text).isSome = true :=
  (c7_amended fetch0 "u").1 rfl

/-! ## Claim C8 -/

/-- C8: a present, non-empty summary is rendered as markdown; an absent or
empty summary prints the fixed "No summary found." line and never invokes
the markdown renderer. -/
theorem c8_present_or_absent (s : Option String) :
    (∀ x, s = some x → x ≠ "" → show_summary s = [DisplayAction.markdown x]) ∧
    (s = none ∨ s = some "" →
      show_summary s = [DisplayAction.plain "No summary found."] ∧
      hasMarkdown (show_summary s) = false) := by
  constructor
  · intro x hx hne
    subst hx
    simp [show_summary, hne]
  · intro h
    rcases h with h | h <;> subst h <;> exact ⟨rfl, rfl⟩

/-- C8 witness: the theorem applied to the present summary "hi" and to the
absent summary. -/
theorem c8_witness :
    show_summary (some "hi") = [DisplayAction.markdown "hi"] ∧
    (show_summary none = [DisplayAction.plain "No summary found."] ∧
      hasMarkdown (show_summary none) = false) :=
  ⟨(c8_present_or_absent (some "hi")).1 "hi" rfl (by decide),
   (c8_present_or_absent none).2 (Or.inl rfl)⟩

/-! ## Claim C9 -/

/-- C9: `get_int` returns an absent value when the key is missing from the
store, and raises `ValueError` when the key is present but its value cannot
be parsed as an integer. -/
theorem c9_get_int (cfg : ConfigStore) (key : String) :
    (configGet cfg key = none → get_int cfg key = Except.ok none) ∧
    (∀ v, configGet cfg key = some v → pyInt v = none →
      get_int cfg key = Except.error (PyError.valueError
        ("invalid literal for int() with base 10: \x27" ++ v ++ "\x27"))) := by
  constructor
  · intro h
    simp [get_int, h]
  · intro v hv hp
    simp [get_int, hv, hp]

/-- C9 witness: the theorem applied to `cfg0` at the missing key "M" and at
the key "N" holding the unparseable value "abc". -/
theorem c9_witness :
    get_int cfg0 "M" = Except.ok none ∧
    get_int cfg0 "N" = Except.error (PyError.valueError
      ("invalid literal for int() with base 10: \x27" ++ "abc" ++ "\x27")) :=
  ⟨(c9_get_int cfg0 "M").1 rfl, (c9_get_int cfg0 "N").2 "abc" rfl (by decide)⟩

/-! ## Claim C10 -/

/-- C10: prompt construction is deterministic — two pages with equal title
and equal body text produce equal two-message conversations in any two runs,
and the system message is the same fixed value on every invocation. -/
theorem c10_deterministic (st1 st2 : SummarizerState) (w1 w2 : Website)
    (h1 : ReachableS st1) (h2 : ReachableS st2)
    (ht : w1.title = w2.title) (hx : w1.text = w2.text) :
    (messages_for st1 w1).1 = (messages_for st2 w2).1 ∧
    (messages_for st1 w1).1 = [system_behavior_value, user_prompt_for w1] := by
  have hu : user_prompt_for w1 = user_prompt_for w2 := by
    unfold user_prompt_for user_prompt_content
    rw [ht, hx]
  have e1 := messages_for_eq st1 w1 h1
  have e2 := messages_for_eq st2 w2 h2
  constructor
  · rw [e1, e2, hu]
  · rw [e1]

/-- C10 witness: the theorem applied to the two reachable summarizer states
and the concrete website `wA` in both runs. -/
theorem c10_witness :
    (messages_for initSummarizerState wA).1
        = (messages_for (⟨some system_behavior_value⟩ : SummarizerState) wA).1 ∧
    (messages_for initSummarizerState wA).1
        = [system_behavior_value, user_prompt_for wA] :=
  c10_deterministic initSummarizerState ⟨some system_behavior_value⟩ wA wA
    (Or.inl rfl) (Or.inr rfl) rfl rfl
